import Mathlib

/-!
# Verification of the KHQR checkout / payment-confirmation coordinator

Shallow embedding of the order store, notification lock, amount formatting,
QR-image endpoint and the `check_payment` poll handler of `src/app.py`,
together with theorems settling the specification claims about them.

Conventions:
* Python `Decimal` values are embedded as `ℚ` (exact fixed-point arithmetic).
* Python timestamps (`datetime.utcnow()`) are embedded as `Int` instants;
  `datetime.fromisoformat` parsing is an abstract parameter
  `parse : String → Option Int`, `none` standing for a raised `ValueError`
  (which `check_payment` catches).
* JSON truthiness (`or` chains, `if val:`) is embedded field-by-field:
  a missing key or an empty string / zero number is falsy.
-/

/-! ## Gateway response interpretation (src/app.py lines 515-531)

The Bakong gateway JSON body.  Only the fields `check_payment` reads are
modelled; `data_*` fields live under the nested `"data"` key (a missing or
falsy `"data"` value is the same as all `data_*` fields missing, matching
`payload.get("data") or {}`).  `responseCode` is a JSON number at top level;
the `*DateMs` fields are JSON numbers (milliseconds). -/
structure GatewayPayload where
  transaction_status : Option String
  data_transaction_status : Option String
  data_trackingStatus : Option String
  responseCode : Option Int
  data_acknowledgedDateMs : Option Nat
  data_createdDateMs : Option Nat
deriving DecidableEq, Repr

/-- Python `str.upper()` restricted to ASCII (all strings compared here are
ASCII). -/
def pyUpper (s : String) : String := String.mk (s.data.map Char.toUpper)

/-- `payload.get(k) or alt` on string-valued keys: `None` and `""` are falsy. -/
def pyOrStr (v : Option String) (alt : String) : String :=
  match v with
  | none => alt
  | some s => if s = "" then alt else s

/-- Python truthiness of an optional JSON number (`None` and `0` are falsy). -/
def truthyNum (v : Option Nat) : Bool :=
  match v with
  | none => false
  | some n => n ≠ 0

/-- The `{}` used for a non-JSON (or falsy-JSON) gateway body. -/
def emptyPayload : GatewayPayload :=
  { transaction_status := none, data_transaction_status := none,
    data_trackingStatus := none, responseCode := none,
    data_acknowledgedDateMs := none, data_createdDateMs := none }

/-- `status_text` from src/app.py lines 522-528: the first truthy value of
`payload["transaction_status"]`, `data["transaction_status"]`,
`data["trackingStatus"]`, defaulting to `""`, upper-cased. -/
def status_text (p : GatewayPayload) : String :=
  pyUpper (pyOrStr p.transaction_status
    (pyOrStr p.data_transaction_status
      (pyOrStr p.data_trackingStatus "")))

/-- `success` from src/app.py lines 529-531. -/
def gatewaySuccess (p : GatewayPayload) : Bool :=
  (status_text p == "SUCCESS") ||
    (p.responseCode == some 0 &&
      (truthyNum p.data_acknowledgedDateMs || truthyNum p.data_createdDateMs))

/-! Claim-side reading of the success rule, written from the spec's words:
the status field is looked up both at top level and nested under `data`
(first present, non-empty value wins) and compared to `"SUCCESS"`
case-insensitively; alternatively a zero response code together with a
non-empty acknowledgement or creation timestamp. -/

/-- Case-insensitive string equality (ASCII). -/
def eqCI (a b : String) : Bool := pyUpper a == pyUpper b

/-- The status field per the spec: probe top level, then under `data`,
taking the first non-empty value. -/
def specStatusLookup (p : GatewayPayload) : String :=
  pyOrStr p.transaction_status
    (pyOrStr p.data_transaction_status
      (pyOrStr p.data_trackingStatus ""))

/-- Success per the spec's words. -/
def specSuccess (p : GatewayPayload) : Prop :=
  eqCI (specStatusLookup p) "SUCCESS" = true ∨
    (p.responseCode = some 0 ∧
      (truthyNum p.data_acknowledgedDateMs = true ∨
        truthyNum p.data_createdDateMs = true))

instance (p : GatewayPayload) : Decidable (specSuccess p) := by
  unfold specSuccess; infer_instance

/-! ## Amount formatting (src/app.py lines 179-189) -/

/-- `Decimal.quantize(Decimal("1"), rounding=ROUND_HALF_UP)`: round to an
integer, ties away from zero. -/
def roundHalfUp (q : ℚ) : ℤ :=
  if q < 0 then -⌊-q + 1/2⌋ else ⌊q + 1/2⌋

/-- `format_amount` from src/app.py: KHR amounts are rounded to the nearest
100 riel (half-up) and rendered as an integer; USD amounts are quantized to
2 fractional digits (half-up).  The numeric value of the returned string is
modelled (the source returns `str(val)`). -/
def format_amount (amount : ℚ) (currency : String) : ℚ :=
  if pyUpper currency = "KHR" then
    ((roundHalfUp (amount / 100) * 100 : ℤ) : ℚ)
  else
    ((roundHalfUp (amount * 100) : ℤ) : ℚ) / 100

/-! ## The poll handler `check_payment` (src/app.py lines 468-574)

The handler is embedded as a pure function over the request, the stored
order, the clock, the ISO-timestamp parser, the gateway outcome and the
outcome of the lock acquisition attempt.  Its observable effects (gateway
query, chat/email dispatch attempts, store write, cart clearing) are
returned explicitly. -/

/-- The fields of a stored order record that `check_payment` and `qr_png`
read.  The remaining fields (customer, items, subtotal, currency, fx_rate,
created_at) only feed the dispatched message bodies. -/
structure OrderRec where
  notified : Bool
  expires_at : Option String
  qr_payload : Option String
deriving DecidableEq, Repr

/-- Outcome of the `requests.post` call to the Bakong gateway:
a raised exception (network error / timeout), a non-200 HTTP status, or a
200 response whose body is a JSON object (`some p`) or non-JSON / falsy JSON
(`none`, which the source turns into `{}`). -/
inductive GatewayResult where
  | netError
  | httpError (code : Nat)
  | ok (body : Option GatewayPayload)
deriving DecidableEq, Repr

/-- The distinct responses `check_payment` can return. -/
inductive CheckResponse where
  | missingMd5
  | noToken
  | orderNotFound
  | expired
  | gatewayRequestFailed
  | gatewayHttpError (code : Nat)
  | waiting
  | paymentSuccess
deriving DecidableEq, Repr

/-- HTTP status code of each response (Flask defaults to 200). -/
def httpStatus : CheckResponse → Nat
  | .missingMd5 => 400
  | .noToken => 500
  | .orderNotFound => 200
  | .expired => 410
  | .gatewayRequestFailed => 502
  | .gatewayHttpError _ => 502
  | .waiting => 200
  | .paymentSuccess => 200

/-- The `"success"` field of the JSON response body (`none` for the error
responses, which carry an `"error"` field instead). -/
def successFlag : CheckResponse → Option Bool
  | .orderNotFound => some true
  | .expired => some false
  | .waiting => some false
  | .paymentSuccess => some true
  | _ => none

/-- A poll call's response together with its observable side effects. -/
structure CallResult where
  resp : CheckResponse
  gatewayQueried : Bool
  tgDispatches : Nat
  mailDispatches : Nat
  savedOrder : Option OrderRec
  cartCleared : Bool
deriving DecidableEq, Repr

/-- A result produced before the gateway call, with no side effects. -/
def noEffect (r : CheckResponse) : CallResult :=
  { resp := r, gatewayQueried := false, tgDispatches := 0,
    mailDispatches := 0, savedOrder := none, cartCleared := false }

/-- A result produced after the gateway call, with no further side effects. -/
def queried (r : CheckResponse) : CallResult :=
  { resp := r, gatewayQueried := true, tgDispatches := 0,
    mailDispatches := 0, savedOrder := none, cartCleared := false }

/-- `exp_str.replace("Z", "")`. -/
def stripZ (s : String) : String := String.mk (s.data.filter (fun c => c ≠ 'Z'))

/-- The expiry test of src/app.py lines 483-494: true exactly when the
stored `expires_at` is present, non-empty and parseable, the current time is
past it, and the order is not yet notified.  A `none` from `parse` stands
for the `ValueError` that the surrounding `try/except` swallows. -/
def expiryHit (parse : String → Option Int) (now : Int) (o : OrderRec) : Bool :=
  match o.expires_at with
  | none => false
  | some s =>
    if s = "" then false
    else
      match parse (stripZ s) with
      | none => false
      | some t => decide (t < now) && !o.notified

/-- `check_payment` from src/app.py lines 468-574.  `tokenSet` is whether
`BAKONG_TOKEN` is configured; `lockAcquired` is the outcome of
`acquire_notify_lock(md5)`.  Note that the post-lock `notified` check on
line 543 reads the `order` snapshot fetched on line 478, before the gateway
call. -/
def check_payment (md5? : Option String) (tokenSet : Bool)
    (order? : Option OrderRec) (parse : String → Option Int) (now : Int)
    (gw : GatewayResult) (lockAcquired : Bool) : CallResult :=
  match md5? with
  | none => noEffect .missingMd5
  | some md5 =>
    if md5 = "" then noEffect .missingMd5
    else if !tokenSet then noEffect .noToken
    else
      match order? with
      | none => noEffect .orderNotFound
      | some order =>
        if expiryHit parse now order then noEffect .expired
        else
          match gw with
          | .netError => queried .gatewayRequestFailed
          | .httpError c => queried (.gatewayHttpError c)
          | .ok body? =>
            let payload := body?.getD emptyPayload
            if !gatewaySuccess payload then queried .waiting
            else if !lockAcquired then queried .paymentSuccess
            else if order.notified then queried .paymentSuccess
            else
              { resp := .paymentSuccess, gatewayQueried := true,
                tgDispatches := 1, mailDispatches := 1,
                savedOrder := some { order with notified := true },
                cartCleared := true }

/-! ## Concurrent polling model (src/app.py lines 478, 538-574)

Interleaving semantics for two poll calls on the same fingerprint whose
gateway query reports success (the premise of the notify-once claim).
Shared state: the stored order's `notified` flag, the notify lock, and the
dispatch counters.  Each caller is a program counter:
* `start`   — about to execute line 478 (`order = orders_get(md5)`); the
  read of the store is one atomic step and captures a local snapshot;
* `ready l` — holds the snapshot `l` of `notified`, its gateway query has
  succeeded, and it is about to call `acquire_notify_lock` (line 538);
* `locked l` — holds the lock; the critical section (lines 542-572:
  stale-snapshot `notified` check, dispatches, save, release) is taken as
  one atomic step, which only restricts the interleavings relative to the
  real code (every behaviour of this model is a behaviour of the code);
* `done b`  — responded, `b` the reported `"success"` value. -/

structure NotifyShared where
  stNotified : Bool
  lockHeld : Bool
  tg : Nat
  mail : Nat
deriving DecidableEq, Repr

inductive CallerPC where
  | start
  | ready (localNotified : Bool)
  | locked (localNotified : Bool)
  | done (reportedSuccess : Bool)
deriving DecidableEq, Repr

/-- One atomic step of a single caller (identity on finished callers). -/
def stepCaller (s : NotifyShared) (pc : CallerPC) : NotifyShared × CallerPC :=
  match pc with
  | .start => (s, .ready s.stNotified)
  | .ready l =>
    if s.lockHeld then (s, .done true)
    else ({ s with lockHeld := true }, .locked l)
  | .locked l =>
    if l then ({ s with lockHeld := false }, .done true)
    else ({ stNotified := true, lockHeld := false,
            tg := s.tg + 1, mail := s.mail + 1 }, .done true)
  | .done b => (s, .done b)

/-- System state: shared state plus the two callers' program counters. -/
structure NotifySys where
  shared : NotifyShared
  pcA : CallerPC
  pcB : CallerPC
deriving DecidableEq, Repr

/-- Execute one step of caller A (`false`) or caller B (`true`). -/
def notifyStep (sys : NotifySys) (who : Bool) : NotifySys :=
  if who then
    let (s, pc) := stepCaller sys.shared sys.pcB
    { sys with shared := s, pcB := pc }
  else
    let (s, pc) := stepCaller sys.shared sys.pcA
    { sys with shared := s, pcA := pc }

/-- Run a schedule (list of caller choices) from a state. -/
def notifyRun (sys : NotifySys) : List Bool → NotifySys
  | [] => sys
  | w :: ws => notifyRun (notifyStep sys w) ws

/-- Initial state: order stored with `notified = false`, lock free,
no dispatches yet, both pollers about to read the order. -/
def notifyInit : NotifySys :=
  { shared := { stNotified := false, lockHeld := false, tg := 0, mail := 0 },
    pcA := .start, pcB := .start }

/-- The interleaving in which both pollers read the order before either
takes the lock, and B takes the lock only after A has released it. -/
def staleSnapshotSchedule : List Bool :=
  [false, true, false, false, true, true]

/-! ## The QR image endpoint `qr_png` (src/app.py lines 387-395)

On a missing order or missing/empty `qr_payload` the source executes
`os.abort(404)`.  `flask.abort` is not imported; `os.abort` is the C-level
`abort()` and accepts no arguments, so the call raises
`TypeError: abort() takes no parameters`, which Flask turns into an HTTP
500 response.  This outcome is modelled as `.serverError`.  Otherwise the
PNG is regenerated from the stored payload (`render` abstracts
`_qr_png_from_payload`) and served with `Cache-Control: no-store`. -/

inductive QrResponse where
  | serverError
  | png (body : List Nat) (cacheControl : String)
deriving DecidableEq, Repr

/-- HTTP status of a `qr_png` outcome. -/
def qrHttpStatus : QrResponse → Nat
  | .serverError => 500
  | .png _ _ => 200

/-- `qr_png` from src/app.py lines 387-395. -/
def qr_png (render : String → List Nat) (order? : Option OrderRec) : QrResponse :=
  match order? with
  | none => .serverError
  | some o =>
    match o.qr_payload with
    | none => .serverError
    | some p =>
      if p = "" then .serverError
      else .png (render p) "no-store, max-age=0"

/-! ## The notification lock (src/app.py lines 60-82)

Both backends are modelled with a ghost holder identity (`Nat`), which the
real states do not record — the Redis key stores the constant `"1"` and
`threading.Lock` is not owner-aware — precisely the point of the
holder-related claims.

Redis backend state: `none` = key absent, `some h` = key present, last
acquired by `h`.  Fallback backend state (`_locks` entry for the key):
`none` = no entry in the dict, `some none` = entry present and unlocked,
`some (some h)` = entry present and locked by `h`.

Each `release` returns the new state together with a flag recording whether
an exception escaped to the caller (always `false`: the fallback wraps the
release in `try/except`, and Redis `DEL` does not raise). -/

/-- `acquire_notify_lock` on the Redis backend:
`SET key "1" NX EX ttl` — succeeds exactly when the key is absent. -/
def acquire_notify_lock_redis (caller : Nat) (st : Option Nat) :
    Option Nat × Bool :=
  match st with
  | none => (some caller, true)
  | some h => (some h, false)

/-- `release_notify_lock` on the Redis backend: an unconditional
`DEL key` — no holder check. -/
def release_notify_lock_redis (_caller : Nat) (_st : Option Nat) :
    Option Nat × Bool :=
  (none, false)

/-- `acquire_notify_lock` on the in-process fallback: get-or-create the
per-key `threading.Lock`, then `acquire(blocking=False)`. -/
def acquire_notify_lock_local (caller : Nat) (st : Option (Option Nat)) :
    Option (Option Nat) × Bool :=
  match st with
  | none => (some (some caller), true)
  | some none => (some (some caller), true)
  | some (some h) => (some (some h), false)

/-- `release_notify_lock` on the in-process fallback:
`_locks.get(md5).release()` inside `try/except`.  A missing entry raises
`AttributeError` (caught); releasing an unlocked lock raises `RuntimeError`
(caught); a locked `threading.Lock` is released by WHOEVER calls
`release()` — the caller is not checked against the holder. -/
def release_notify_lock_local (_caller : Nat) (st : Option (Option Nat)) :
    Option (Option Nat) × Bool :=
  match st with
  | none => (none, false)
  | some none => (some none, false)
  | some (some _) => (some none, false)

/-! ## The order store (src/app.py lines 34-58)

Redis backend: `order:<md5> → (record, expiry deadline)`, written with
`SETEX` (TTL reset on every write); a read past the deadline sees nothing.
Fallback backend: the per-session `pending_orders` dict keyed by the raw
md5; `ttl_sec` is not used by this branch of the source.  Both carry an
explicit clock argument so their observable behaviour can be compared. -/

/-- State of the Redis orders keyspace. -/
def OrdersRedis : Type := String → Option (OrderRec × Int)

/-- State of the session-backed `pending_orders` dict. -/
def OrdersLocal : Type := String → Option OrderRec

/-- `orders_save`, Redis branch: `SETEX order:<md5> ttl json(order)`. -/
def orders_save_redis (st : OrdersRedis) (md5 : String) (order : OrderRec)
    (ttl_sec : Int) (now : Int) : OrdersRedis :=
  fun k => if k = "order:" ++ md5 then some (order, now + ttl_sec) else st k

/-- `orders_get`, Redis branch (an expired key reads as absent). -/
def orders_get_redis (st : OrdersRedis) (md5 : String) (now : Int) :
    Option OrderRec :=
  match st ("order:" ++ md5) with
  | none => none
  | some (o, deadline) => if now < deadline then some o else none

/-- `orders_save`, session branch: `pending[md5] = order` (`ttl_sec` unused). -/
def orders_save_local (st : OrdersLocal) (md5 : String) (order : OrderRec)
    (_ttl_sec : Int) (_now : Int) : OrdersLocal :=
  fun k => if k = md5 then some order else st k

/-- `orders_get`, session branch. -/
def orders_get_local (st : OrdersLocal) (md5 : String) (_now : Int) :
    Option OrderRec :=
  st md5

/-- `orders_update`, Redis branch: read-modify-write; when the entry is
absent it returns `none` without invoking the mutator.  The source's
`updater(o) or o` makes a `None`-returning mutator act as the identity, so
the mutator is embedded as a total function.  The re-save uses the default
`ttl_sec = 3600`. -/
def orders_update_redis (st : OrdersRedis) (md5 : String)
    (updater : OrderRec → OrderRec) (now : Int) :
    OrdersRedis × Option OrderRec :=
  match orders_get_redis st md5 now with
  | none => (st, none)
  | some o =>
    let o2 := updater o
    (orders_save_redis st md5 o2 3600 now, some o2)

/-- `orders_update`, session branch. -/
def orders_update_local (st : OrdersLocal) (md5 : String)
    (updater : OrderRec → OrderRec) (now : Int) :
    OrdersLocal × Option OrderRec :=
  match orders_get_local st md5 now with
  | none => (st, none)
  | some o =>
    let o2 := updater o
    (orders_save_local st md5 o2 3600 now, some o2)

/-- The empty Redis keyspace. -/
def emptyRedis : OrdersRedis := fun _ => none

/-- The empty session store. -/
def emptyLocal : OrdersLocal := fun _ => none

/-! ## Theorems -/

/-! ### Helper lemmas -/

theorem roundHalfUp_nonneg_eq (q : ℚ) (h : 0 ≤ q) :
    roundHalfUp q = ⌊q + 1/2⌋ := by
  unfold roundHalfUp
  rw [if_neg (not_lt.mpr h)]

theorem gatewaySuccess_iff (p : GatewayPayload) :
    gatewaySuccess p = true ↔ specSuccess p := by
  have h : pyUpper "SUCCESS" = "SUCCESS" := rfl
  unfold gatewaySuccess specSuccess eqCI status_text specStatusLookup
  rw [h]
  simp [Bool.or_eq_true, Bool.and_eq_true, beq_iff_eq]

theorem check_payment_proceeds
    (md5 : String) (order : OrderRec) (parse : String → Option Int)
    (now : Int) (gw : GatewayResult) (lockAcq : Bool)
    (hmd5 : md5 ≠ "") (hexp : expiryHit parse now order = false) :
    check_payment (some md5) true (some order) parse now gw lockAcq =
      match gw with
      | .netError => queried .gatewayRequestFailed
      | .httpError c => queried (.gatewayHttpError c)
      | .ok body? =>
        if !gatewaySuccess (body?.getD emptyPayload) then queried .waiting
        else if !lockAcq then queried .paymentSuccess
        else if order.notified then queried .paymentSuccess
        else { resp := .paymentSuccess, gatewayQueried := true,
               tgDispatches := 1, mailDispatches := 1,
               savedOrder := some { order with notified := true },
               cartCleared := true } := by
  simp [check_payment, hmd5, hexp]

/-! ### Claim C2 -/

/-- C2: for every JSON gateway response body, the poll handler reports
payment success iff the status field — looked up at top level and nested
under `data`, first non-empty value winning — equals "SUCCESS"
case-insensitively, or the response code equals zero and a non-empty
acknowledgement or creation timestamp is present; otherwise it returns the
non-terminal waiting response. -/
theorem C2_gateway_response_interpretation
    (md5 : String) (order : OrderRec) (parse : String → Option Int)
    (now : Int) (lockAcq : Bool) (p : GatewayPayload)
    (hmd5 : md5 ≠ "") (hexp : expiryHit parse now order = false) :
    (successFlag (check_payment (some md5) true (some order) parse now
        (.ok (some p)) lockAcq).resp = some true ↔ specSuccess p) ∧
    (¬ specSuccess p →
      check_payment (some md5) true (some order) parse now
        (.ok (some p)) lockAcq = queried .waiting ∧
      httpStatus .waiting = 200) := by
  rw [check_payment_proceeds md5 order parse now _ lockAcq hmd5 hexp]
  by_cases hs : specSuccess p
  · have hb : gatewaySuccess p = true := (gatewaySuccess_iff p).mpr hs
    simp only [Option.getD_some, hb, Bool.not_true, Bool.false_eq_true,
      if_false]
    refine ⟨?_, fun hns => absurd hs hns⟩
    cases lockAcq <;> cases hn : order.notified <;>
      simp [queried, successFlag, hs]
  · have hb : gatewaySuccess p = false := by
      cases hgb : gatewaySuccess p
      · rfl
      · exact absurd ((gatewaySuccess_iff p).mp hgb) hs
    simp [hb, hs, successFlag, queried, httpStatus]

/-- Witness for C2 at a concrete payload (`data.trackingStatus = "success"`,
matched case-insensitively) and at a concrete non-success payload. -/
theorem C2_gateway_response_interpretation_witness :
    ("m" : String) ≠ "" ∧
    expiryHit (fun _ => none) 0 ⟨false, none, none⟩ = false ∧
    (successFlag (check_payment (some "m") true (some ⟨false, none, none⟩)
        (fun _ => none) 0
        (.ok (some ⟨none, none, some "success", some 1, none, none⟩))
        true).resp = some true ↔
      specSuccess ⟨none, none, some "success", some 1, none, none⟩) :=
  ⟨by decide, by decide,
    (C2_gateway_response_interpretation "m" ⟨false, none, none⟩
      (fun _ => none) 0 true ⟨none, none, some "success", some 1, none, none⟩
      (by decide) (by decide)).1⟩

/-! ### Claim C3 -/

/-- C3: a poll whose stored order has a parseable `expires_at` in the past
and `notified = false` returns the terminal 410 expiry response — a status
code distinct from the 200 of the transient waiting response — without
querying the gateway; when `notified = true` the expiry is ignored: the
poll proceeds to the gateway and a successful gateway response yields the
payment-success response. -/
theorem C3_expiry_rule
    (md5 : String) (order : OrderRec) (s : String) (t now : Int)
    (parse : String → Option Int) (gw : GatewayResult) (lockAcq : Bool)
    (hmd5 : md5 ≠ "") (hs : order.expires_at = some s) (hne : s ≠ "")
    (hp : parse (stripZ s) = some t) (hlt : t < now) :
    (order.notified = false →
      check_payment (some md5) true (some order) parse now gw lockAcq
        = noEffect .expired ∧
      (check_payment (some md5) true (some order) parse now gw
        lockAcq).gatewayQueried = false ∧
      httpStatus .expired = 410 ∧ httpStatus .waiting = 200) ∧
    (order.notified = true →
      (check_payment (some md5) true (some order) parse now gw
        lockAcq).gatewayQueried = true ∧
      (∀ p : GatewayPayload, gatewaySuccess p = true →
        (check_payment (some md5) true (some order) parse now
          (.ok (some p)) lockAcq).resp = .paymentSuccess)) := by
  constructor
  · intro hn
    have hexp : expiryHit parse now order = true := by
      simp [expiryHit, hs, hne, hp, hlt, hn]
    refine ⟨?_, ?_, rfl, rfl⟩ <;> simp [check_payment, hmd5, hexp, noEffect]
  · intro hn
    have hexp : expiryHit parse now order = false := by
      simp [expiryHit, hs, hne, hp, hn]
    constructor
    · rw [check_payment_proceeds md5 order parse now gw lockAcq hmd5 hexp]
      cases gw with
      | netError => rfl
      | httpError c => rfl
      | ok body? =>
        cases hb : gatewaySuccess (body?.getD emptyPayload) <;>
          simp [hb, hn, queried]
    · intro p hps
      rw [check_payment_proceeds md5 order parse now _ lockAcq hmd5 hexp]
      simp [hps, hn, queried]

/-- Witness for C3 at a concrete expired order, exercising both the
`notified = false` and (via a second record) the premise set. -/
theorem C3_expiry_rule_witness :
    ("m" : String) ≠ "" ∧
    (⟨false, some "e", none⟩ : OrderRec).expires_at = some "e" ∧
    ("e" : String) ≠ "" ∧
    (fun x => if x = "e" then some (10 : Int) else none) (stripZ "e")
      = some 10 ∧
    (10 : Int) < 20 ∧
    (check_payment (some "m") true (some ⟨false, some "e", none⟩)
        (fun x => if x = "e" then some (10 : Int) else none) 20
        (.ok none) true = noEffect .expired) :=
  ⟨by decide, rfl, by decide, by decide, by decide,
    ((C3_expiry_rule "m" ⟨false, some "e", none⟩ "e" 10 20
      (fun x => if x = "e" then some (10 : Int) else none) (.ok none) true
      (by decide) rfl (by decide) (by decide) (by decide)).1 rfl).1⟩

/-! ### Claim C4 -/

/-- C4: polling a fingerprint with no stored order returns the permissive
success-like response (HTTP 200, `success = true`) with zero chat and email
dispatches, no store write, no cart change, and no gateway query. -/
theorem C4_missing_order
    (md5 : String) (parse : String → Option Int) (now : Int)
    (gw : GatewayResult) (lockAcq : Bool) (hmd5 : md5 ≠ "") :
    check_payment (some md5) true none parse now gw lockAcq
      = noEffect .orderNotFound ∧
    successFlag .orderNotFound = some true ∧
    httpStatus .orderNotFound = 200 ∧
    (noEffect .orderNotFound).tgDispatches = 0 ∧
    (noEffect .orderNotFound).mailDispatches = 0 ∧
    (noEffect .orderNotFound).savedOrder = none ∧
    (noEffect .orderNotFound).cartCleared = false ∧
    (noEffect .orderNotFound).gatewayQueried = false := by
  refine ⟨?_, rfl, rfl, rfl, rfl, rfl, rfl, rfl⟩
  simp [check_payment, hmd5]

/-- Witness for C4 at a concrete fingerprint. -/
theorem C4_missing_order_witness :
    ("m" : String) ≠ "" ∧
    check_payment (some "m") true none (fun _ => none) 0 .netError true
      = noEffect .orderNotFound :=
  ⟨by decide,
    (C4_missing_order "m" (fun _ => none) 0 .netError true (by decide)).1⟩

/-! ### Claim C5 -/

/-- C5 counterexample: a gateway reply with HTTP status 200 whose body is
not JSON is turned into the empty payload (src/app.py lines 515-519) and
falls through to the 200 "Waiting for payment..." response — not to a 502
gateway-unavailable response as the claim states. -/
theorem C5_counterexample_nonjson_is_waiting :
    check_payment (some "m") true (some ⟨false, none, none⟩)
        (fun _ => none) 0 (.ok none) true = queried .waiting ∧
    httpStatus (check_payment (some "m") true (some ⟨false, none, none⟩)
        (fun _ => none) 0 (.ok none) true).resp = 200 ∧
    (200 : Nat) ≠ 502 := by
  refine ⟨by decide, by decide, by decide⟩

/-- C5 (amended): an upstream network error or timeout and a non-200 HTTP
status are each mapped to a 502 gateway-unavailable response, distinct from
the 200 non-terminal waiting response, and neither raises past the handler
(the embedded handler is total); a non-JSON 200 body, however, is treated
as an empty JSON object and yields the non-terminal waiting response. -/
theorem C5_gateway_error_mapping
    (md5 : String) (order : OrderRec) (parse : String → Option Int)
    (now : Int) (lockAcq : Bool)
    (hmd5 : md5 ≠ "") (hexp : expiryHit parse now order = false) :
    (check_payment (some md5) true (some order) parse now .netError lockAcq
       = queried .gatewayRequestFailed ∧
     httpStatus .gatewayRequestFailed = 502) ∧
    (∀ c : Nat,
      check_payment (some md5) true (some order) parse now (.httpError c)
          lockAcq = queried (.gatewayHttpError c) ∧
      httpStatus (.gatewayHttpError c) = 502) ∧
    (check_payment (some md5) true (some order) parse now (.ok none) lockAcq
       = queried .waiting ∧
     httpStatus .waiting = 200 ∧ (502 : Nat) ≠ 200) := by
  refine ⟨⟨?_, rfl⟩, fun c => ⟨?_, rfl⟩, ⟨?_, rfl, by decide⟩⟩
  · rw [check_payment_proceeds md5 order parse now .netError lockAcq hmd5 hexp]
  · rw [check_payment_proceeds md5 order parse now (.httpError c) lockAcq
      hmd5 hexp]
  · rw [check_payment_proceeds md5 order parse now (.ok none) lockAcq
      hmd5 hexp]
    have hb : gatewaySuccess emptyPayload = false := by decide
    simp [hb]

/-- Witness for C5 at concrete inputs. -/
theorem C5_gateway_error_mapping_witness :
    ("m" : String) ≠ "" ∧
    expiryHit (fun _ => none) 0 ⟨false, none, none⟩ = false ∧
    (check_payment (some "m") true (some ⟨false, none, none⟩)
        (fun _ => none) 0 .netError true
      = queried .gatewayRequestFailed ∧
     httpStatus .gatewayRequestFailed = 502) :=
  ⟨by decide, by decide,
    (C5_gateway_error_mapping "m" ⟨false, none, none⟩ (fun _ => none) 0 true
      (by decide) (by decide)).1⟩

/-! ### Claim C10 -/

/-- C10: when the stored `expires_at` is missing, empty, or fails to parse
as an ISO timestamp, the expiry check is silently skipped: the handler
returns the same response as it would for an order with no `expires_at` at
all, never returns the expiry response, queries the gateway, and (being a
total function) raises nothing. -/
theorem C10_unparseable_expiry_skipped
    (md5 : String) (order : OrderRec) (parse : String → Option Int)
    (now : Int) (gw : GatewayResult) (lockAcq : Bool)
    (hmd5 : md5 ≠ "")
    (h : order.expires_at = none ∨
         ∃ s, order.expires_at = some s ∧
           (s = "" ∨ parse (stripZ s) = none)) :
    (check_payment (some md5) true (some order) parse now gw lockAcq).resp
      = (check_payment (some md5) true
          (some { order with expires_at := none }) parse now gw
          lockAcq).resp ∧
    (check_payment (some md5) true (some order) parse now gw lockAcq).resp
      ≠ .expired ∧
    (check_payment (some md5) true (some order) parse now gw
      lockAcq).gatewayQueried = true := by
  have hexp : expiryHit parse now order = false := by
    rcases h with h | ⟨s, hs, h2⟩
    · simp [expiryHit, h]
    · rcases h2 with h2 | h2 <;> simp [expiryHit, hs, h2]
  have hexp2 : expiryHit parse now { order with expires_at := none }
      = false := by
    simp [expiryHit]
  rw [check_payment_proceeds md5 order parse now gw lockAcq hmd5 hexp,
    check_payment_proceeds md5 { order with expires_at := none } parse now gw
      lockAcq hmd5 hexp2]
  cases gw with
  | netError => exact ⟨rfl, by simp [queried], rfl⟩
  | httpError c => exact ⟨rfl, by simp [queried], rfl⟩
  | ok body? =>
    cases hb : gatewaySuccess (body?.getD emptyPayload) <;>
      cases lockAcq <;> cases hn : order.notified <;>
        simp [hb, hn, queried]

/-- Witness for C10 at a concrete unparseable `expires_at`. -/
theorem C10_unparseable_expiry_skipped_witness :
    ("m" : String) ≠ "" ∧
    ((⟨false, some "bad", none⟩ : OrderRec).expires_at = none ∨
      ∃ s, (⟨false, some "bad", none⟩ : OrderRec).expires_at = some s ∧
        (s = "" ∨ (fun _ => (none : Option Int)) (stripZ s) = none)) ∧
    (check_payment (some "m") true (some ⟨false, some "bad", none⟩)
        (fun _ => none) 0 (.ok none) true).resp ≠ .expired :=
  ⟨by decide, Or.inr ⟨"bad", rfl, Or.inr rfl⟩,
    (C10_unparseable_expiry_skipped "m" ⟨false, some "bad", none⟩
      (fun _ => none) 0 (.ok none) true (by decide)
      (Or.inr ⟨"bad", rfl, Or.inr rfl⟩)).2.1⟩

/-! ### Claim C1 -/

/-- Two fully sequential polls (the second starts after the first finished)
produce exactly one chat and one email dispatch attempt and both report
success: the second call re-reads the store and sees `notified = true`. -/
theorem notify_sequential_single_dispatch :
    (notifyRun notifyInit [false, false, false, true, true, true]).shared.tg
      = 1 ∧
    (notifyRun notifyInit
        [false, false, false, true, true, true]).shared.mail = 1 ∧
    (notifyRun notifyInit [false, false, false, true, true, true]).pcA
      = .done true ∧
    (notifyRun notifyInit [false, false, false, true, true, true]).pcB
      = .done true := by
  decide

/-- C1 evaluated at the failing interleaving: both pollers read the order
(`notified = false`, line 478 of src/app.py) before either attempts the
lock; poller A acquires, dispatches, saves `notified = true` and releases;
poller B then acquires the (now free) lock, and the line-543 check consults
B's stale snapshot — not a fresh store read — so B dispatches again.  The
run ends with two chat and two email dispatch attempts, both callers
reporting success, refuting the exactly-one-dispatch claim. -/
theorem C1_stale_snapshot_double_dispatch :
    (notifyRun notifyInit staleSnapshotSchedule).shared.tg = 2 ∧
    (notifyRun notifyInit staleSnapshotSchedule).shared.mail = 2 ∧
    (notifyRun notifyInit staleSnapshotSchedule).pcA = .done true ∧
    (notifyRun notifyInit staleSnapshotSchedule).pcB = .done true ∧
    (notifyRun notifyInit staleSnapshotSchedule).shared.stNotified = true := by
  decide

/-! ### Claim C6 -/

/-- C6 evaluated at the failing input, plus the good path: a request whose
fingerprint has no stored order (or whose order lacks a payload) hits
`os.abort(404)`, which raises `TypeError` and surfaces as HTTP 500 — not
the claimed 404 — while a stored payload is re-rendered on each request and
served with a `Cache-Control: no-store` header. -/
theorem C6_qr_endpoint (render : String → List Nat) :
    qr_png render none = .serverError ∧
    qrHttpStatus (qr_png render none) = 500 ∧
    (500 : Nat) ≠ 404 ∧
    qr_png render (some ⟨false, none, none⟩) = .serverError ∧
    qr_png render (some ⟨false, none, some "PAYLOAD"⟩)
      = .png (render "PAYLOAD") "no-store, max-age=0" := by
  refine ⟨rfl, rfl, by decide, rfl, ?_⟩
  simp [qr_png]

/-- Witness for C6 at a concrete renderer. -/
theorem C6_qr_endpoint_witness :
    qr_png (fun _ => []) none = .serverError :=
  (C6_qr_endpoint (fun _ => [])).1

/-! ### Claim C7 -/

theorem roundHalfUp_abs_le (q : ℚ) (h : 0 ≤ q) :
    |(roundHalfUp q : ℚ) - q| ≤ 1 / 2 := by
  rw [roundHalfUp_nonneg_eq q h]
  have h1 := Int.floor_le (q + 1 / 2)
  have h2 := Int.sub_one_lt_floor (q + 1 / 2)
  rw [abs_le]
  exact ⟨by linarith, by linarith⟩

/-- C7: KHR formatting rounds the amount to the nearest 100 riel half-up —
`roundHalfUp (amount / 100) * 100` as an integer value — with 4938 mapping
to 4900 and the half-up boundary 4950 to 5000, staying within 50 riel of
the exact amount; USD formatting rounds half-up to exactly 2 fractional
digits, staying within 1/200 of the exact amount.  All arithmetic is exact
(`ℚ`), with no floating-point rounding. -/
theorem C7_amount_formatting :
    format_amount 4938 "KHR" = 4900 ∧
    format_amount 4950 "KHR" = 5000 ∧
    (∀ a : ℚ, format_amount a "KHR"
      = ((roundHalfUp (a / 100) * 100 : ℤ) : ℚ)) ∧
    (∀ a : ℚ, ∃ n : ℤ, format_amount a "KHR" = (n : ℚ)) ∧
    (∀ a : ℚ, 0 ≤ a → |format_amount a "KHR" - a| ≤ 50) ∧
    (∀ a : ℚ, format_amount a "USD"
      = ((roundHalfUp (a * 100) : ℤ) : ℚ) / 100) ∧
    (∀ a : ℚ, ∃ n : ℤ, format_amount a "USD" * 100 = (n : ℚ)) ∧
    (∀ a : ℚ, 0 ≤ a → |format_amount a "USD" - a| ≤ 1 / 200) := by
  have hkhr : ∀ a : ℚ, format_amount a "KHR"
      = ((roundHalfUp (a / 100) * 100 : ℤ) : ℚ) := by
    intro a
    rw [format_amount, if_pos (by decide)]
  have husd : ∀ a : ℚ, format_amount a "USD"
      = ((roundHalfUp (a * 100) : ℤ) : ℚ) / 100 := by
    intro a
    rw [format_amount, if_neg (by decide)]
  refine ⟨?_, ?_, hkhr, ?_, ?_, husd, ?_, ?_⟩
  · rw [hkhr]; norm_num [roundHalfUp]
  · rw [hkhr]; norm_num [roundHalfUp]
  · intro a; exact ⟨roundHalfUp (a / 100) * 100, by rw [hkhr]⟩
  · intro a ha
    rw [hkhr]
    have hb := roundHalfUp_abs_le (a / 100) (by positivity)
    rw [abs_le] at hb ⊢
    push_cast at hb ⊢
    constructor <;> nlinarith [hb.1, hb.2]
  · intro a; exact ⟨roundHalfUp (a * 100), by rw [husd]; field_simp⟩
  · intro a ha
    rw [husd]
    have hb := roundHalfUp_abs_le (a * 100) (by positivity)
    rw [abs_le] at hb ⊢
    constructor <;> nlinarith [hb.1, hb.2]

/-- Witness for C7 at concrete amounts. -/
theorem C7_amount_formatting_witness :
    (0 : ℚ) ≤ 4938 ∧ |format_amount 4938 "KHR" - 4938| ≤ 50 ∧
    (0 : ℚ) ≤ 1 ∧ |format_amount 1 "USD" - 1| ≤ 1 / 200 :=
  ⟨by norm_num, C7_amount_formatting.2.2.2.2.1 4938 (by norm_num),
    by norm_num, C7_amount_formatting.2.2.2.2.2.2.2 1 (by norm_num)⟩

/-! ### Claim C8 -/

/-- C8 counterexample: releasing a key held by holder 0 from a different
caller 1 is not a no-op on either backend — on the shared backend the
unconditional `DEL` removes the key and a third caller can then acquire
while holder 0 still believes it holds the lock; on the fallback backend
`threading.Lock.release()` is not owner-checked and unlocks holder 0's
lock the same way. -/
theorem C8_counterexample_foreign_release :
    (release_notify_lock_redis 1 (some 0)).1 ≠ some 0 ∧
    (acquire_notify_lock_redis 2 (release_notify_lock_redis 1 (some 0)).1).2
      = true ∧
    (release_notify_lock_local 1 (some (some 0))).1 ≠ some (some 0) ∧
    (acquire_notify_lock_local 2
        (release_notify_lock_local 1 (some (some 0))).1).2 = true := by
  decide

/-- C8 (amended): on both backends release is idempotent and never raises
to the caller, and releasing an unheld lock is a no-op; but release is not
holder-checked — releasing a key currently held by a different holder
removes that holder's lock on both backends. -/
theorem C8_release_semantics :
    (∀ (c c2 : Nat) (st : Option Nat),
      release_notify_lock_redis c2 (release_notify_lock_redis c st).1
        = release_notify_lock_redis c st) ∧
    (∀ (c : Nat) (st : Option Nat),
      (release_notify_lock_redis c st).2 = false) ∧
    (∀ c : Nat, (release_notify_lock_redis c none).1 = none) ∧
    (∀ c h : Nat, (release_notify_lock_redis c (some h)).1 = none) ∧
    (∀ (c c2 : Nat) (st : Option (Option Nat)),
      release_notify_lock_local c2 (release_notify_lock_local c st).1
        = release_notify_lock_local c st) ∧
    (∀ (c : Nat) (st : Option (Option Nat)),
      (release_notify_lock_local c st).2 = false) ∧
    (∀ c : Nat, (release_notify_lock_local c none).1 = none ∧
      (release_notify_lock_local c (some none)).1 = some none) ∧
    (∀ c h : Nat,
      (release_notify_lock_local c (some (some h))).1 = some none) := by
  refine ⟨fun c c2 st => rfl, fun c st => rfl, fun c => rfl, fun c h => rfl,
    fun c c2 st => ?_, fun c st => ?_, fun c => ⟨rfl, rfl⟩, fun c h => rfl⟩
  · cases st with
    | none => rfl
    | some l => cases l <;> rfl
  · cases st with
    | none => rfl
    | some l => cases l <;> rfl

/-! ### Claim C9 -/

/-- C9 counterexample: an order saved with `ttl = 3600` at time 0 and read
at time 4000 is absent on the shared backend but still present on the
fallback backend — the fallback's `orders_save` ignores `ttl_sec`, so the
two backends do not implement identical expiry semantics. -/
theorem C9_counterexample_ttl_divergence :
    orders_get_redis
        (orders_save_redis emptyRedis "k" ⟨false, none, none⟩ 3600 0)
        "k" 4000 = none ∧
    orders_get_local
        (orders_save_local emptyLocal "k" ⟨false, none, none⟩ 3600 0)
        "k" 4000 = some ⟨false, none, none⟩ ∧
    orders_get_redis
        (orders_save_redis emptyRedis "k" ⟨false, none, none⟩ 3600 0)
        "k" 4000 ≠
      orders_get_local
        (orders_save_local emptyLocal "k" ⟨false, none, none⟩ 3600 0)
        "k" 4000 := by
  refine ⟨?_, ?_, ?_⟩ <;> decide

/-- C9 (amended): both backends agree on upsert/read/update semantics —
`get` after `save` returns the saved order (on the shared backend for as
long as the written deadline has not passed, on the fallback at every
time), saving the same order twice leaves the same store as saving it once,
and `update` of an absent fingerprint returns absent without consulting the
mutator — but only the shared backend enforces the TTL: its deadline is
reset to `now + ttl` on every write, while the fallback ignores `ttl_sec`
and its entries never expire. -/
theorem C9_store_semantics :
    (∀ (st : OrdersRedis) (k : String) (o : OrderRec) (ttl now t2 : Int),
      orders_get_redis (orders_save_redis st k o ttl now) k t2
        = if t2 < now + ttl then some o else none) ∧
    (∀ (st : OrdersLocal) (k : String) (o : OrderRec) (ttl now t2 : Int),
      orders_get_local (orders_save_local st k o ttl now) k t2 = some o) ∧
    (∀ (st : OrdersRedis) (k : String) (o : OrderRec) (ttl now : Int),
      orders_save_redis (orders_save_redis st k o ttl now) k o ttl now
        = orders_save_redis st k o ttl now) ∧
    (∀ (st : OrdersLocal) (k : String) (o : OrderRec) (ttl now : Int),
      orders_save_local (orders_save_local st k o ttl now) k o ttl now
        = orders_save_local st k o ttl now) ∧
    (∀ (st : OrdersRedis) (k : String) (now : Int)
        (f g : OrderRec → OrderRec),
      orders_get_redis st k now = none →
        orders_update_redis st k f now = (st, none) ∧
        orders_update_redis st k f now = orders_update_redis st k g now) ∧
    (∀ (st : OrdersLocal) (k : String) (now : Int)
        (f g : OrderRec → OrderRec),
      orders_get_local st k now = none →
        orders_update_local st k f now = (st, none) ∧
        orders_update_local st k f now = orders_update_local st k g now) := by
  refine ⟨?_, ?_, ?_, ?_, ?_, ?_⟩
  · intro st k o ttl now t2
    simp [orders_get_redis, orders_save_redis]
  · intro st k o ttl now t2
    simp [orders_get_local, orders_save_local]
  · intro st k o ttl now
    funext k2
    simp only [orders_save_redis]
    split <;> rfl
  · intro st k o ttl now
    funext k2
    simp only [orders_save_local]
    split <;> rfl
  · intro st k now f g h
    unfold orders_update_redis
    rw [h]
    exact ⟨rfl, rfl⟩
  · intro st k now f g h
    unfold orders_update_local
    rw [h]
    exact ⟨rfl, rfl⟩

/-- Witness for C9's amended theorem at the empty stores. -/
theorem C9_store_semantics_witness :
    orders_get_redis emptyRedis "k" 0 = none ∧
    orders_update_redis emptyRedis "k" id 0 = (emptyRedis, none) ∧
    orders_get_local emptyLocal "k" 0 = none ∧
    orders_update_local emptyLocal "k" id 0 = (emptyLocal, none) :=
  ⟨rfl,
    (C9_store_semantics.2.2.2.2.1 emptyRedis "k" 0 id id rfl).1,
    rfl,
    (C9_store_semantics.2.2.2.2.2 emptyLocal "k" 0 id id rfl).1⟩

/-- Witness for C8's amended theorem at concrete holders. -/
theorem C8_release_semantics_witness :
    release_notify_lock_redis 1 (release_notify_lock_redis 0 (some 5)).1
      = release_notify_lock_redis 0 (some 5) ∧
    release_notify_lock_local 1 (release_notify_lock_local 0
        (some (some 5))).1
      = release_notify_lock_local 0 (some (some 5)) :=
  ⟨C8_release_semantics.1 0 1 (some 5),
    C8_release_semantics.2.2.2.2.1 0 1 (some (some 5))⟩
